import Mathlib

/-!
Verification development for the request-dispatch and process-orchestration
core of `sanic/app.py` (a minimal Sanic-like HTTP application class).

The embedding below translates the `Sanic` class into Lean:

* The per-request pipeline `Sanic.handle_request` becomes the pure function
  `handle_request`, which returns the full trace of observable events
  (hook invocations, router consultation, handler call, error-handler call,
  and the final `response_callback` delivery).  Python exceptions are
  modelled with `Except Err`; the `isawaitable`/`await` dance is collapsed
  into the final value-or-exception outcome of each call, which is the only
  thing the surrounding code observes.
* Python truthiness of pipeline values (`if response:` / `if not response:`)
  is modelled by `pyTruthy` on the value type `PyVal`.
* The supervisor side (`Sanic.run`, `Sanic.serve_multiple`, `Sanic.stop`)
  becomes trace-producing state transformers over the `App` record, with an
  oracle record `Sys` supplying the outcomes of the external operations that
  can fail (socket bind, process start, the in-process `serve` call).
  Per Python semantics, `socket.close()` on an already-closed socket object
  and `Process.terminate()` on an exited process are harmless no-ops.

Registration surfaces that no claim touches (`route`, `add_route`,
`exception`, `blueprint`, and the config/logger bookkeeping of `__init__`)
are elided; the `Router` and the error-handler object (`sanic/exceptions.py`,
outside the given sources) are abstract functions, exactly as the pipeline
consumes them.
-/

/-- A pipeline value as the Python code discriminates it: the initial
`response = False`, the absent value `None`, or a (truthy) response object
carrying a body string (`HTTPResponse(body)` and handler/hook results). -/
inductive PyVal where
  | vFalse
  | vNone
  | resp (body : String)
deriving DecidableEq, Repr

/-- Python truthiness as used by `if response:` / `if not response:` in
`handle_request`. -/
def pyTruthy : PyVal → Bool
  | PyVal.vFalse => false
  | PyVal.vNone => false
  | PyVal.resp _ => true

/-- An exception value; `serverError` is the `ServerError` raised by
`handle_request` itself, `exc` any other exception. -/
inductive Err where
  | serverError (msg : String)
  | exc (msg : String)
deriving DecidableEq, Repr

/-- `str(e)` as used by `"...".format(e, ...)`. -/
def Err.str : Err → String
  | Err.serverError m => m
  | Err.exc m => m

/-- Requests are opaque to the pipeline; it only forwards them. -/
abbrev Request := Nat

/-- A middleware callable, tagged with an identity so invocations can be
traced.  One Python callable serves either chain; `onReq` is its behaviour
when called as `middleware(request)` and `onResp` when called as
`middleware(request, response)`.  The result is the outcome after the
`isawaitable`/`await` step: a value or a raised exception. -/
structure Middleware where
  id : Nat
  onReq : Request → Except Err PyVal
  onResp : Request → PyVal → Except Err PyVal

/-- A route handler with the identity used in traces; called as
`handler(request, *args)` (keyword arguments are folded into `args`). -/
structure Handler where
  id : Nat
  fn : Request → List PyVal → Except Err PyVal

/-- The external error-handler object (`Handler` from `sanic/exceptions.py`):
a mutable `debug` flag plus the `response(request, e)` method, which may
itself raise. -/
structure ErrorHandler where
  debug : Bool
  response : Request → Err → Except Err PyVal

/-- State of the shared listening socket created by `serve_multiple`. -/
structure SockState where
  reuseAddr : Bool := false
  bound : Bool := false
  inheritable : Bool := false
  closed : Bool := false
deriving DecidableEq, Repr

/-- The fields of the `Sanic` application object that the modelled methods
read or write.  `router` is the external `Router.get`, returning an optional
handler and its arguments, or raising. -/
structure App where
  router : Request → Except Err (Option Handler × List PyVal)
  error_handler : ErrorHandler
  debug : Option Bool := none
  sock : Option SockState := none
  processes : Option (List Nat) := none
  request_middleware : List Middleware := []
  response_middleware : List Middleware := []

/-- Truthiness of `self.debug` (initially `None`, hence falsy). -/
def debugTruthy : Option Bool → Bool
  | none => false
  | some b => b

/-- Observable events of one `handle_request` invocation. -/
inductive Ev where
  | reqHook (id : Nat)
  | routerGet
  | handlerCall (id : Nat)
  | respHook (id : Nat)
  | errHandlerCall
  | deliver (v : PyVal)
deriving DecidableEq, Repr

/-- The request-middleware loop: `response` starts as the accumulator and is
overwritten by each hook result; a truthy result breaks the loop and a raise
aborts the phase. -/
def runRequestMW (req : Request) : List Middleware → PyVal → List Ev × Except Err PyVal
  | [], acc => ([], Except.ok acc)
  | mw :: rest, _ =>
    match mw.onReq req with
    | Except.error e => ([Ev.reqHook mw.id], Except.error e)
    | Except.ok r =>
      if pyTruthy r then
        ([Ev.reqHook mw.id], Except.ok r)
      else
        let p := runRequestMW req rest r
        (Ev.reqHook mw.id :: p.1, p.2)

/-- The response-middleware loop: `_response = middleware(request, response)`;
only a truthy `_response` replaces `response` and breaks the loop. -/
def runResponseMW (req : Request) (response : PyVal) : List Middleware → List Ev × Except Err PyVal
  | [] => ([], Except.ok response)
  | mw :: rest =>
    match mw.onResp req response with
    | Except.error e => ([Ev.respHook mw.id], Except.error e)
    | Except.ok r =>
      if pyTruthy r then
        ([Ev.respHook mw.id], Except.ok r)
      else
        let p := runResponseMW req response rest
        (Ev.respHook mw.id :: p.1, p.2)

/-- The `ServerError` message raised when the router returns no handler. -/
def routerNoneMsg : String :=
  "\x27None\x27 was returned while requesting a handler from the router"

/-- The handler phase: `handler, args, kwargs = self.router.get(request)`;
a `None` handler raises `ServerError`, otherwise the handler is invoked. -/
def handlerPhase (app : App) (req : Request) : List Ev × Except Err PyVal :=
  match app.router req with
  | Except.error e => ([Ev.routerGet], Except.error e)
  | Except.ok (none, _) => ([Ev.routerGet], Except.error (Err.serverError routerNoneMsg))
  | Except.ok (some h, args) =>
    match h.fn req args with
    | Except.error e => ([Ev.routerGet, Ev.handlerCall h.id], Except.error e)
    | Except.ok r => ([Ev.routerGet, Ev.handlerCall h.id], Except.ok r)

/-- The whole `try:` body of `handle_request`: request middleware from
`response = False`, then (only if `not response`) the handler phase, then
the response middleware on whatever `response` holds. -/
def tryBody (app : App) (req : Request) : List Ev × Except Err PyVal :=
  let p1 := runRequestMW req app.request_middleware PyVal.vFalse
  match p1.2 with
  | Except.error e => (p1.1, Except.error e)
  | Except.ok resp1 =>
    if pyTruthy resp1 then
      let p3 := runResponseMW req resp1 app.response_middleware
      (p1.1 ++ p3.1, p3.2)
    else
      let p2 := handlerPhase app req
      match p2.2 with
      | Except.error e => (p1.1 ++ p2.1, Except.error e)
      | Except.ok resp2 =>
        let p3 := runResponseMW req resp2 app.response_middleware
        (p1.1 ++ p2.1 ++ p3.1, p3.2)

/-- Stand-in for the text of `traceback.format_exc()`: its concrete frames
are a runtime artefact, but every such string carries this banner, which is
what "contains a stack trace" means below. -/
def format_exc : String := "Traceback (most recent call last): <frames elided>"

/-- The generic second-level fallback body (non-debug mode). -/
def genericErrBody : String := "An error occured while handling an error"

/-- The verbose second-level fallback body (debug mode):
`"Error while handling error: {}\nStack: {}".format(e, format_exc())`. -/
def debugErrBody (e2 : Err) : String :=
  "Error while handling error: " ++ (Err.str e2 ++ ("\nStack: " ++ format_exc))

/-- The `except Exception as e:` block of `handle_request`: the registered
error handler translates the failure; if that itself raises, the second-level
fallback builds an `HTTPResponse` whose body depends on `self.debug`. -/
def containError (app : App) (req : Request) (e : Err) : PyVal :=
  match app.error_handler.response req e with
  | Except.ok r => r
  | Except.error e2 =>
    if debugTruthy app.debug then
      PyVal.resp (debugErrBody e2)
    else
      PyVal.resp genericErrBody

/-- `handle_request(request, response_callback)` as a trace of events; the
final `response_callback(response)` call is the `deliver` event. -/
def handle_request (app : App) (req : Request) : List Ev :=
  let p := tryBody app req
  match p.2 with
  | Except.ok r => p.1 ++ [Ev.deliver r]
  | Except.error e => p.1 ++ [Ev.errHandlerCall, Ev.deliver (containError app req e)]

/-- The value passed to `response_callback`. -/
def delivered (app : App) (req : Request) : PyVal :=
  match (tryBody app req).2 with
  | Except.ok r => r
  | Except.error e => containError app req e

/-- Recognizes the delivery event. -/
def isDeliverEv : Ev → Bool
  | Ev.deliver _ => true
  | _ => false

/-- Number of `response_callback` invocations in a trace. -/
def deliverCount (tr : List Ev) : Nat := (tr.filter isDeliverEv).length

/-- `register_middleware` of the `middleware` decorator: `attach_to`
selects `request_middleware.append` or `response_middleware.appendleft`
(two independent `if` tests, as in the source). -/
def register_middleware (app : App) (attach_to : String) (mw : Middleware) : App :=
  let app1 :=
    if attach_to = "request" then
      { app with request_middleware := app.request_middleware ++ [mw] }
    else
      app
  if attach_to = "response" then
    { app1 with response_middleware := mw :: app1.response_middleware }
  else
    app1

/-- The `@app.middleware` call shape (bare decorator): request kind. -/
def middleware_default (app : App) (mw : Middleware) : App :=
  register_middleware app "request" mw

/-- The `@app.middleware(attach_to)` call shape. -/
def middleware_at (app : App) (attach_to : String) (mw : Middleware) : App :=
  register_middleware app attach_to mw

/-- Observable events of the supervisor side (`run` / `serve_multiple` /
`stop`). -/
inductive SEv where
  | logInfo (msg : String)
  | logException (msg : String)
  | setDebugLogLevel
  | signalInstall (sig : String)
  | serveCall
  | sockCreate
  | setReuseAddr
  | sockBind
  | setInheritable
  | procCreate (i : Nat)
  | procStart (i : Nat)
  | procJoin (i : Nat)
  | procTerminate (i : Nat)
  | sockClose
  | loopStop
deriving DecidableEq, Repr

/-- The `server_settings` dictionary keys the modelled code reads/writes
(`host`/`port` are replaced by `None` once a shared socket exists;
`hasSock` records whether the `sock` entry is populated). -/
structure ServerSettings where
  host : Option String
  port : Option Nat
  hasSock : Bool
  debug : Bool
  reuse_port : Bool
deriving DecidableEq, Repr

/-- Oracle for the external operations that can raise: `bindFail` makes
`socket.bind` raise, `spawnFail = some k` makes `Process.start` of the
`k`-th worker raise, `serveFail` makes the in-process `serve(...)` call of
the single-worker path raise. -/
structure Sys where
  bindFail : Bool
  spawnFail : Option Nat
  serveFail : Bool

/-- Python `socket.close()`: closes the descriptor the first time, and is a
harmless no-op on an already-closed socket object. -/
def sockCloseOp (s : SockState) : List SEv × SockState :=
  if s.closed then ([], s) else ([SEv.sockClose], { s with closed := true })

/-- `Sanic.stop`: terminate recorded processes and close the socket only if
`self.processes is not None`, then stop the event loop.  `self.sock.close()`
with `self.sock = None` would raise `AttributeError`, hence the `Except`. -/
def stop (app : App) : Except Err (List SEv × App) :=
  match app.processes with
  | none => Except.ok ([SEv.loopStop], app)
  | some ps =>
    match app.sock with
    | none => Except.error (Err.exc ("AttributeError: NoneType has no attribute close"))
    | some s =>
      let p := sockCloseOp s
      Except.ok (ps.map SEv.procTerminate ++ p.1 ++ [SEv.loopStop],
                 { app with sock := some p.2 })

/-- The worker-spawning loop of `serve_multiple`, from index `i` with `n`
iterations left: each iteration creates a `Process`, starts it, and appends
its handle; if `Process.start` raises (at `failAt`), the exception aborts
the loop (the created-but-unstarted process is not appended).  Returns the
events, the appended handles, and whether the loop raised. -/
def spawnProcs (failAt : Option Nat) (i : Nat) : Nat → List SEv × List Nat × Bool
  | 0 => ([], [], false)
  | n + 1 =>
    if failAt = some i then
      ([SEv.procCreate i], [], true)
    else
      let p := spawnProcs failAt (i + 1) n
      (SEv.procCreate i :: SEv.procStart i :: p.1, i :: p.2.1, p.2.2)

/-- `Sanic.serve_multiple`: set `reuse_port`, install SIGINT/SIGTERM
handlers on the stop event, create the socket, set `SO_REUSEADDR`, bind,
mark the descriptor inheritable, move the socket into the settings, spawn
`workers` processes, join them all, then `self.stop()`.  An exception from
bind or a `start()` propagates (returned as `some` error). -/
def serve_multiple (sys : Sys) (app : App) (settings : ServerSettings) (workers : Nat) :
    List SEv × App × ServerSettings × Option Err :=
  let settings := { settings with reuse_port := true }
  let evs := [SEv.signalInstall ("SIGINT"), SEv.signalInstall ("SIGTERM")]
  let s : SockState := {}
  let evs := evs ++ [SEv.sockCreate]
  let s := { s with reuseAddr := true }
  let evs := evs ++ [SEv.setReuseAddr]
  let app := { app with sock := some s }
  if sys.bindFail then
    (evs, app, settings, some (Err.exc ("OSError: could not bind")))
  else
    let s := { s with bound := true }
    let evs := evs ++ [SEv.sockBind]
    let s := { s with inheritable := true }
    let evs := evs ++ [SEv.setInheritable]
    let app := { app with sock := some s }
    let settings := { settings with hasSock := true, host := none, port := none }
    let sp := spawnProcs sys.spawnFail 0 workers
    let app := { app with processes := some sp.2.1 }
    if sp.2.2 then
      (evs ++ sp.1, app, settings, some (Err.exc ("process start failed")))
    else
      let evs := evs ++ sp.1 ++ sp.2.1.map SEv.procJoin
      match stop app with
      | Except.ok p => (evs ++ p.1, p.2, settings, none)
      | Except.error e => (evs, app, settings, some e)

/-- The startup log line `Goin' Fast @ http://host:port`. -/
def startupMsg (host : String) (port : Nat) : String :=
  "Goin\x27 Fast @ http://" ++ host ++ ":" ++ toString port

/-- The `Spinning up N workers...` log line. -/
def spinMsg (workers : Nat) : String :=
  "Spinning up " ++ toString workers ++ " workers..."

/-- The message of `log.exception` in `run`. -/
def serveErrMsg : String := "Experienced exception while trying to serve"

/-- `Sanic.run`: force `error_handler.debug = True`, record `self.debug`,
build the settings, optionally raise the log level, log the startup line,
then serve (in-process for one worker, `serve_multiple` otherwise) inside a
`try` whose handler only logs; finally log `Server Stopped` and return. -/
def run (sys : Sys) (app : App) (host : String) (port : Nat) (debug : Bool) (workers : Nat) :
    List SEv × App :=
  let app := { app with error_handler := { app.error_handler with debug := true },
                        debug := some debug }
  let settings : ServerSettings :=
    { host := some host, port := some port, hasSock := false,
      debug := debug, reuse_port := false }
  let evs := if debug then [SEv.setDebugLogLevel] else []
  let evs := evs ++ [SEv.logInfo (startupMsg host port)]
  let (evs, app) :=
    if workers == 1 then
      if sys.serveFail then
        (evs ++ [SEv.serveCall, SEv.logException serveErrMsg], app)
      else
        (evs ++ [SEv.serveCall], app)
    else
      let smr := serve_multiple sys app settings workers
      match smr.2.2.2 with
      | some _ =>
        (evs ++ [SEv.logInfo (spinMsg workers)] ++ smr.1 ++ [SEv.logException serveErrMsg],
         smr.2.1)
      | none =>
        (evs ++ [SEv.logInfo (spinMsg workers)] ++ smr.1, smr.2.1)
  (evs ++ [SEv.logInfo ("Server Stopped")], app)

/-! ### Concrete hooks, handlers and applications used as test inputs -/

/-- A handler that returns Python `None` (no exception, no response). -/
def noneHandler : Handler := { id := 11, fn := fun _ _ => Except.ok PyVal.vNone }

/-- An error handler whose `response` method always succeeds. -/
def okErrorHandler : ErrorHandler :=
  { debug := false, response := fun _ e => Except.ok (PyVal.resp ("handled: " ++ Err.str e)) }

/-- App with no middleware and a route whose handler returns `None`. -/
def appNoneHandler : App :=
  { router := fun _ => Except.ok (some noneHandler, []), error_handler := okErrorHandler }

/-- A middleware that raises in either chain. -/
def raisingMW : Middleware :=
  { id := 1, onReq := fun _ => Except.error (Err.exc ("request hook boom")),
    onResp := fun _ _ => Except.error (Err.exc ("response hook boom")) }

/-- A middleware that returns `None` in either chain (falls through). -/
def passMW : Middleware :=
  { id := 2, onReq := fun _ => Except.ok PyVal.vNone,
    onResp := fun _ _ => Except.ok PyVal.vNone }

/-- A middleware that short-circuits with a response in either chain. -/
def shortMW : Middleware :=
  { id := 3, onReq := fun _ => Except.ok (PyVal.resp ("early")),
    onResp := fun _ _ => Except.ok (PyVal.resp ("late")) }

/-- A handler that raises. -/
def raisingHandler : Handler :=
  { id := 12, fn := fun _ _ => Except.error (Err.exc ("handler boom")) }

/-- An error handler whose `response` method itself raises. -/
def raisingErrorHandler : ErrorHandler :=
  { debug := false, response := fun _ _ => Except.error (Err.exc ("secondary boom")) }

/-- App in which every request hook, the handler, every response hook and
the first-level error translator all raise. -/
def appAllRaise : App :=
  { router := fun _ => Except.ok (some raisingHandler, []),
    error_handler := raisingErrorHandler,
    request_middleware := [raisingMW],
    response_middleware := [raisingMW] }

/-- App whose router resolves no handler (`router.get` returns `None`). -/
def appNoRoute : App :=
  { router := fun _ => Except.ok (none, []), error_handler := okErrorHandler,
    request_middleware := [passMW] }

/-- App for the request-hook short-circuit scenario: a falling-through hook,
then a short-circuiting one, then one that would raise. -/
def appShortCircuit : App :=
  { router := fun _ => Except.ok (some raisingHandler, []),
    error_handler := okErrorHandler,
    request_middleware := [passMW, shortMW, raisingMW],
    response_middleware := [passMW] }

/-- Three distinguishable response hooks that fall through. -/
def hookA : Middleware :=
  { id := 100, onReq := fun _ => Except.ok PyVal.vNone, onResp := fun _ _ => Except.ok PyVal.vNone }

/-- Second response hook. -/
def hookB : Middleware :=
  { id := 101, onReq := fun _ => Except.ok PyVal.vNone, onResp := fun _ _ => Except.ok PyVal.vNone }

/-- Third response hook. -/
def hookC : Middleware :=
  { id := 102, onReq := fun _ => Except.ok PyVal.vNone, onResp := fun _ _ => Except.ok PyVal.vNone }

/-- A fresh app with no registered middleware. -/
def appFresh : App :=
  { router := fun _ => Except.ok (some noneHandler, []), error_handler := okErrorHandler }

/-- The oracle for fault-free external operations. -/
def sysOK : Sys := { bindFail := false, spawnFail := none, serveFail := false }

/-- Prefix test on character lists (for substring checks on bodies). -/
def chStarts : List Char → List Char → Bool
  | [], _ => true
  | _ :: _, [] => false
  | a :: as, b :: bs => a == b && chStarts as bs

/-- Occurrence (substring) test on character lists. -/
def chOccurs (needle : List Char) : List Char → Bool
  | [] => chStarts needle []
  | b :: bs => chStarts needle (b :: bs) || chOccurs needle bs

/-- The body string of a response value (empty for absent values). -/
def bodyOf : PyVal → String
  | PyVal.resp b => b
  | _ => ""

/-- Whether `s` contains the `format_exc` banner, i.e. a stack trace. -/
def hasTraceBanner (s : String) : Bool := chOccurs format_exc.toList s.toList

/-- Recognizes `procCreate` events. -/
def isCreateEv : SEv → Bool
  | SEv.procCreate _ => true
  | _ => false

/-- Recognizes `procStart` events. -/
def isStartEv : SEv → Bool
  | SEv.procStart _ => true
  | _ => false

/-! ### Trace-shape lemmas for the pipeline phases -/

theorem runRequestMW_events (req : Request) (mws : List Middleware) (acc : PyVal) :
    ∀ e ∈ (runRequestMW req mws acc).1, ∃ i, e = Ev.reqHook i := by
  induction mws generalizing acc with
  | nil => intro e he; simp [runRequestMW] at he
  | cons mw rest ih =>
    intro e he
    rcases hmw : mw.onReq req with err | r
    · simp [runRequestMW, hmw] at he
      exact ⟨mw.id, he⟩
    · by_cases ht : pyTruthy r
      · simp [runRequestMW, hmw, ht] at he
        exact ⟨mw.id, he⟩
      · simp [runRequestMW, hmw, ht] at he
        rcases he with he | he
        · exact ⟨mw.id, he⟩
        · exact ih r e he

theorem runResponseMW_events (req : Request) (response : PyVal) (mws : List Middleware) :
    ∀ e ∈ (runResponseMW req response mws).1, ∃ i, e = Ev.respHook i := by
  induction mws with
  | nil => intro e he; simp [runResponseMW] at he
  | cons mw rest ih =>
    intro e he
    rcases hmw : mw.onResp req response with err | r
    · simp [runResponseMW, hmw] at he
      exact ⟨mw.id, he⟩
    · by_cases ht : pyTruthy r
      · simp [runResponseMW, hmw, ht] at he
        exact ⟨mw.id, he⟩
      · simp [runResponseMW, hmw, ht] at he
        rcases he with he | he
        · exact ⟨mw.id, he⟩
        · exact ih e he

theorem handlerPhase_events (app : App) (req : Request) :
    ∀ e ∈ (handlerPhase app req).1, e = Ev.routerGet ∨ ∃ i, e = Ev.handlerCall i := by
  intro e he
  rcases hr : app.router req with err | pr
  · simp [handlerPhase, hr] at he
    exact Or.inl he
  · rcases pr with ⟨oh, args⟩
    rcases oh with _ | h
    · simp [handlerPhase, hr] at he
      exact Or.inl he
    · rcases hf : h.fn req args with err | r
      · simp [handlerPhase, hr, hf] at he
        rcases he with he | he
        · exact Or.inl he
        · exact Or.inr ⟨h.id, he⟩
      · simp [handlerPhase, hr, hf] at he
        rcases he with he | he
        · exact Or.inl he
        · exact Or.inr ⟨h.id, he⟩

theorem tryBody_events (app : App) (req : Request) :
    ∀ e ∈ (tryBody app req).1,
      (∃ i, e = Ev.reqHook i) ∨ e = Ev.routerGet ∨
      (∃ i, e = Ev.handlerCall i) ∨ (∃ i, e = Ev.respHook i) := by
  intro e he
  simp only [tryBody] at he
  split at he
  · exact Or.inl (runRequestMW_events req _ _ e he)
  · split at he
    · rw [List.mem_append] at he
      rcases he with he | he
      · exact Or.inl (runRequestMW_events req _ _ e he)
      · exact Or.inr (Or.inr (Or.inr (runResponseMW_events req _ _ e he)))
    · split at he
      · rw [List.mem_append] at he
        rcases he with he | he
        · exact Or.inl (runRequestMW_events req _ _ e he)
        · rcases handlerPhase_events app req e he with h | h
          · exact Or.inr (Or.inl h)
          · exact Or.inr (Or.inr (Or.inl h))
      · rw [List.mem_append, List.mem_append] at he
        rcases he with (he | he) | he
        · exact Or.inl (runRequestMW_events req _ _ e he)
        · rcases handlerPhase_events app req e he with h | h
          · exact Or.inr (Or.inl h)
          · exact Or.inr (Or.inr (Or.inl h))
        · exact Or.inr (Or.inr (Or.inr (runResponseMW_events req _ _ e he)))

theorem tryBody_no_deliver (app : App) (req : Request) :
    ∀ e ∈ (tryBody app req).1, isDeliverEv e = false := by
  intro e he
  rcases tryBody_events app req e he with ⟨i, rfl⟩ | rfl | ⟨i, rfl⟩ | ⟨i, rfl⟩ <;> rfl

/-- `handle_request` spelled out from `tryBody` and the containment block. -/
theorem handle_request_eq (app : App) (req : Request) :
    handle_request app req =
      (tryBody app req).1 ++
        (match (tryBody app req).2 with
         | Except.ok r => [Ev.deliver r]
         | Except.error e => [Ev.errHandlerCall, Ev.deliver (containError app req e)]) := by
  simp only [handle_request]
  split <;> simp_all


/-! ### Claim C1 -/

/-- Claim C1, amended: for every app and request, `handle_request` invokes
`response_callback` exactly once; and whenever any pipeline phase raised and
the first-level error translator also raises on that error, the delivered
response is the non-absent second-level `HTTPResponse`.  (The original
universal non-absence fails when no phase raises but the handler returns
`None`; see the counterexample.) -/
theorem c1_deliver_once (app : App) (req : Request) :
    deliverCount (handle_request app req) = 1 ∧
    (∀ e, (tryBody app req).2 = Except.error e →
      (∃ e2, app.error_handler.response req e = Except.error e2) →
      pyTruthy (delivered app req) = true) := by
  constructor
  · rw [handle_request_eq, deliverCount, List.filter_append]
    rw [List.filter_eq_nil_iff.mpr (fun a ha => by simp [tryBody_no_deliver app req a ha])]
    split <;> rfl
  · intro e h1 h2
    rcases h2 with ⟨e2, h2⟩
    simp only [delivered, h1, containError, h2]
    split <;> rfl

/-- Claim C1, counterexample to the original statement: with no middleware
and a routed handler that returns `None`, `response_callback` receives the
absent value `None`. -/
theorem c1_counterexample :
    delivered appNoneHandler 0 = PyVal.vNone ∧
    pyTruthy (delivered appNoneHandler 0) = false := by
  exact ⟨rfl, rfl⟩

/-- Claim C1, witness: on the app where every hook, the handler and the
error translator raise, delivery happens exactly once with a truthy value. -/
theorem c1_witness :
    deliverCount (handle_request appAllRaise 0) = 1 ∧
    pyTruthy (delivered appAllRaise 0) = true := by
  refine ⟨(c1_deliver_once appAllRaise 0).1, ?_⟩
  exact (c1_deliver_once appAllRaise 0).2 (Err.exc ("request hook boom")) rfl
    ⟨Err.exc ("secondary boom"), rfl⟩

/-! ### Claim C2 -/

/-- Claim C2: if any pipeline phase raises and the registered error handler
itself raises on that error, then in debug mode the delivered response is
the verbose fallback whose body embeds the secondary error message, while
in non-debug mode it is exactly the generic message, which contains no
stack trace. -/
theorem c2_fallback_debug_split (app : App) (req : Request) (e e2 : Err)
    (h1 : (tryBody app req).2 = Except.error e)
    (h2 : app.error_handler.response req e = Except.error e2) :
    (debugTruthy app.debug = true →
      delivered app req = PyVal.resp (debugErrBody e2) ∧
      ∃ pre post, bodyOf (delivered app req) = pre ++ (Err.str e2 ++ post)) ∧
    (debugTruthy app.debug = false →
      delivered app req = PyVal.resp genericErrBody ∧
      hasTraceBanner (bodyOf (delivered app req)) = false) := by
  have hdel : delivered app req =
      (if debugTruthy app.debug then PyVal.resp (debugErrBody e2)
       else PyVal.resp genericErrBody) := by
    simp only [delivered, h1, containError, h2]
  constructor
  · intro hd
    rw [hdel, if_pos hd]
    exact ⟨rfl, "Error while handling error: ", "\nStack: " ++ format_exc, rfl⟩
  · intro hd
    rw [hdel, if_neg (by simp [hd])]
    exact ⟨rfl, by decide⟩

/-- Claim C2, witness: the all-raising app under `debug=True` and
`debug=False`. -/
theorem c2_witness :
    delivered { appAllRaise with debug := some true } 0 =
      PyVal.resp (debugErrBody (Err.exc ("secondary boom"))) ∧
    delivered { appAllRaise with debug := some false } 0 = PyVal.resp genericErrBody ∧
    hasTraceBanner (bodyOf (delivered { appAllRaise with debug := some false } 0)) = false := by
  refine ⟨?_, ?_, ?_⟩
  · exact ((c2_fallback_debug_split { appAllRaise with debug := some true } 0
      (Err.exc ("request hook boom")) (Err.exc ("secondary boom")) rfl rfl).1 rfl).1
  · exact ((c2_fallback_debug_split { appAllRaise with debug := some false } 0
      (Err.exc ("request hook boom")) (Err.exc ("secondary boom")) rfl rfl).2 rfl).1
  · exact ((c2_fallback_debug_split { appAllRaise with debug := some false } 0
      (Err.exc ("request hook boom")) (Err.exc ("secondary boom")) rfl rfl).2 rfl).2

/-! ### Claim C3 -/

/-- If every request hook falls through (returns a falsy value without
raising), the request-middleware loop visits all hooks and ends on a falsy
accumulator. -/
theorem runRequestMW_falls_through (req : Request) (mws : List Middleware) (acc : PyVal)
    (hacc : pyTruthy acc = false)
    (h : ∀ mw ∈ mws, ∃ v, mw.onReq req = Except.ok v ∧ pyTruthy v = false) :
    ∃ acc2, runRequestMW req mws acc = ((mws.map fun mw => Ev.reqHook mw.id), Except.ok acc2) ∧
      pyTruthy acc2 = false := by
  induction mws generalizing acc with
  | nil => exact ⟨acc, rfl, hacc⟩
  | cons mw rest ih =>
    rcases h mw (by simp) with ⟨v, hv, hvf⟩
    rcases ih v hvf (fun m hm => h m (by simp [hm])) with ⟨acc2, hrec, hacc2⟩
    refine ⟨acc2, ?_, hacc2⟩
    simp [runRequestMW, hv, hvf, hrec]

/-- Claim C3: if no request hook short-circuits and the router resolves no
handler, the pipeline raises the internal `ServerError`, the failure is
caught, and the delivered response is the one produced by the
error-translation block (`containError`); the call still ends in exactly
the delivery event, so no exception escapes `handle_request`. -/
theorem c3_missing_handler (app : App) (req : Request) (args : List PyVal)
    (hmw : ∀ mw ∈ app.request_middleware, ∃ v, mw.onReq req = Except.ok v ∧ pyTruthy v = false)
    (hr : app.router req = Except.ok (none, args)) :
    (tryBody app req).2 = Except.error (Err.serverError routerNoneMsg) ∧
    delivered app req = containError app req (Err.serverError routerNoneMsg) ∧
    handle_request app req =
      (app.request_middleware.map fun mw => Ev.reqHook mw.id) ++
        [Ev.routerGet, Ev.errHandlerCall,
         Ev.deliver (containError app req (Err.serverError routerNoneMsg))] := by
  rcases runRequestMW_falls_through req app.request_middleware PyVal.vFalse rfl hmw with
    ⟨acc2, h1, h2⟩
  have htb : tryBody app req =
      ((app.request_middleware.map fun mw => Ev.reqHook mw.id) ++ [Ev.routerGet],
       Except.error (Err.serverError routerNoneMsg)) := by
    simp only [tryBody, h1]
    simp [h2, handlerPhase, hr]
  refine ⟨by rw [htb], by simp [delivered, htb], ?_⟩
  rw [handle_request_eq, htb]
  simp

/-- Claim C3, witness: the app whose router yields no handler. -/
theorem c3_witness :
    handle_request appNoRoute 0 =
      [Ev.reqHook 2, Ev.routerGet, Ev.errHandlerCall,
       Ev.deliver (containError appNoRoute 0 (Err.serverError routerNoneMsg))] := by
  have h := c3_missing_handler appNoRoute 0 []
    (by
      intro mw hmw
      have : mw = passMW := by simpa [appNoRoute] using hmw
      exact ⟨PyVal.vNone, by rw [this]; rfl, rfl⟩)
    rfl
  simpa [appNoRoute, passMW] using h.2.2

/-! ### Claim C4 -/

/-- If the hooks before `m` fall through and `m` returns a truthy value, the
request-middleware loop stops at `m` with that value; the hooks after `m`
are never called. -/
theorem runRequestMW_short_circuit (req : Request) (pre post : List Middleware)
    (m : Middleware) (acc v : PyVal)
    (hpre : ∀ mw ∈ pre, ∃ w, mw.onReq req = Except.ok w ∧ pyTruthy w = false)
    (hm : m.onReq req = Except.ok v) (hv : pyTruthy v = true) :
    runRequestMW req (pre ++ m :: post) acc =
      ((pre.map fun mw => Ev.reqHook mw.id) ++ [Ev.reqHook m.id], Except.ok v) := by
  induction pre generalizing acc with
  | nil => simp [runRequestMW, hm, hv]
  | cons mw rest ih =>
    rcases hpre mw (by simp) with ⟨w, hw, hwf⟩
    have hrec := ih w (fun x hx => hpre x (by simp [hx]))
    simp [runRequestMW, hw, hwf, hrec]

/-- Claim C4: if request hook `m` (preceded by hooks that fell through)
returns a non-empty response `v`, the later request hooks are not invoked,
the router is never consulted and no handler runs, and the response-hook
phase still runs on `v`; the full `try` block is exactly the `pre` hook
events, the `m` event, and the response phase started from `v`. -/
theorem c4_request_hook_short_circuit (app : App) (req : Request)
    (pre post : List Middleware) (m : Middleware) (v : PyVal)
    (happ : app.request_middleware = pre ++ m :: post)
    (hpre : ∀ mw ∈ pre, ∃ w, mw.onReq req = Except.ok w ∧ pyTruthy w = false)
    (hm : m.onReq req = Except.ok v) (hv : pyTruthy v = true) :
    tryBody app req =
      ((pre.map fun mw => Ev.reqHook mw.id) ++ Ev.reqHook m.id ::
         (runResponseMW req v app.response_middleware).1,
       (runResponseMW req v app.response_middleware).2) ∧
    Ev.routerGet ∉ handle_request app req ∧
    (∀ i, Ev.handlerCall i ∉ handle_request app req) := by
  have hreq := runRequestMW_short_circuit req pre post m PyVal.vFalse v hpre hm hv
  have htb : tryBody app req =
      ((pre.map fun mw => Ev.reqHook mw.id) ++ Ev.reqHook m.id ::
         (runResponseMW req v app.response_middleware).1,
       (runResponseMW req v app.response_middleware).2) := by
    simp only [tryBody, happ, hreq]
    simp [hv]
  have hshape : ∀ e ∈ handle_request app req,
      (∃ i, e = Ev.reqHook i) ∨ (∃ i, e = Ev.respHook i) ∨
      e = Ev.errHandlerCall ∨ (∃ w, e = Ev.deliver w) := by
    intro e he
    rw [handle_request_eq, htb] at he
    rcases hsp : (runResponseMW req v app.response_middleware).2 with er | r <;> rw [hsp] at he
    · rcases List.mem_append.mp he with h1 | h2
      · rcases List.mem_append.mp h1 with ha | hb
        · rcases List.mem_map.mp ha with ⟨mw, _, rfl⟩
          exact Or.inl ⟨mw.id, rfl⟩
        · rcases List.mem_cons.mp hb with rfl | hc
          · exact Or.inl ⟨m.id, rfl⟩
          · rcases runResponseMW_events req v app.response_middleware e hc with ⟨i, rfl⟩
            exact Or.inr (Or.inl ⟨i, rfl⟩)
      · rcases List.mem_cons.mp h2 with rfl | h3
        · exact Or.inr (Or.inr (Or.inl rfl))
        · rcases List.mem_cons.mp h3 with rfl | h4
          · exact Or.inr (Or.inr (Or.inr ⟨_, rfl⟩))
          · simp at h4
    · rcases List.mem_append.mp he with h1 | h2
      · rcases List.mem_append.mp h1 with ha | hb
        · rcases List.mem_map.mp ha with ⟨mw, _, rfl⟩
          exact Or.inl ⟨mw.id, rfl⟩
        · rcases List.mem_cons.mp hb with rfl | hc
          · exact Or.inl ⟨m.id, rfl⟩
          · rcases runResponseMW_events req v app.response_middleware e hc with ⟨i, rfl⟩
            exact Or.inr (Or.inl ⟨i, rfl⟩)
      · rcases List.mem_cons.mp h2 with rfl | h3
        · exact Or.inr (Or.inr (Or.inr ⟨_, rfl⟩))
        · simp at h3
  refine ⟨htb, ?_, ?_⟩
  · intro hmem
    rcases hshape _ hmem with ⟨i, hi⟩ | ⟨i, hi⟩ | hi | ⟨w, hi⟩ <;> simp at hi
  · intro i hmem
    rcases hshape _ hmem with ⟨j, hj⟩ | ⟨j, hj⟩ | hj | ⟨w, hj⟩ <;> simp at hj

/-- Claim C4, witness: hook 2 falls through, hook 3 short-circuits, hook 1
(which would raise) is after it; the router is never consulted. -/
theorem c4_witness :
    tryBody appShortCircuit 0 =
      ([Ev.reqHook 2, Ev.reqHook 3, Ev.respHook 2],
       Except.ok (PyVal.resp ("early"))) ∧
    Ev.routerGet ∉ handle_request appShortCircuit 0 := by
  have h := c4_request_hook_short_circuit appShortCircuit 0 [passMW] [raisingMW] shortMW
    (PyVal.resp ("early")) rfl
    (by
      intro mw hmw
      have : mw = passMW := by simpa using hmw
      exact ⟨PyVal.vNone, by rw [this]; rfl, rfl⟩)
    rfl rfl
  refine ⟨?_, h.2.1⟩
  have := h.1
  simpa [passMW, shortMW] using this

/-! ### Claim C5 -/

/-- Registration under the `response` kind prepends to the response chain
(`appendleft`) and leaves the request chain alone. -/
theorem middleware_at_response (app : App) (mw : Middleware) :
    (middleware_at app "response" mw).response_middleware = mw :: app.response_middleware ∧
    (middleware_at app "response" mw).request_middleware = app.request_middleware := by
  constructor <;> simp [middleware_at, register_middleware]

/-- Claim C5: registering response hooks A, B, C in that order yields the
chain `[C, B, A]`, and, when none of them short-circuits, the response-hook
phase invokes them exactly in that reverse-of-registration order. -/
theorem c5_response_hook_order (app : App) (A B C : Middleware) (req : Request) (r : PyVal)
    (happ : app.response_middleware = [])
    (hA : ∃ w, A.onResp req r = Except.ok w ∧ pyTruthy w = false)
    (hB : ∃ w, B.onResp req r = Except.ok w ∧ pyTruthy w = false)
    (hC : ∃ w, C.onResp req r = Except.ok w ∧ pyTruthy w = false) :
    (middleware_at (middleware_at (middleware_at app "response" A) "response" B)
        "response" C).response_middleware = [C, B, A] ∧
    runResponseMW req r
        (middleware_at (middleware_at (middleware_at app "response" A) "response" B)
          "response" C).response_middleware =
      ([Ev.respHook C.id, Ev.respHook B.id, Ev.respHook A.id], Except.ok r) := by
  have hchain : (middleware_at (middleware_at (middleware_at app "response" A) "response" B)
      "response" C).response_middleware = [C, B, A] := by
    rw [(middleware_at_response _ C).1, (middleware_at_response _ B).1,
      (middleware_at_response _ A).1, happ]
  rcases hA with ⟨wa, hwa, hfa⟩
  rcases hB with ⟨wb, hwb, hfb⟩
  rcases hC with ⟨wc, hwc, hfc⟩
  refine ⟨hchain, ?_⟩
  rw [hchain]
  simp [runResponseMW, hwa, hwb, hwc, hfa, hfb, hfc]

/-- Claim C5, witness: the three concrete hooks on the fresh app. -/
theorem c5_witness :
    (middleware_at (middleware_at (middleware_at appFresh "response" hookA) "response" hookB)
        "response" hookC).response_middleware = [hookC, hookB, hookA] ∧
    runResponseMW 0 (PyVal.resp ("body"))
        (middleware_at (middleware_at (middleware_at appFresh "response" hookA) "response" hookB)
          "response" hookC).response_middleware =
      ([Ev.respHook 102, Ev.respHook 101, Ev.respHook 100], Except.ok (PyVal.resp ("body"))) := by
  have h := c5_response_hook_order appFresh hookA hookB hookC 0 (PyVal.resp ("body")) rfl
    ⟨PyVal.vNone, rfl, rfl⟩ ⟨PyVal.vNone, rfl, rfl⟩ ⟨PyVal.vNone, rfl, rfl⟩
  exact ⟨h.1, by simpa [hookA, hookB, hookC] using h.2⟩

/-! ### Spawn-loop lemmas for the supervisor claims -/

/-- With no start failure, the spawn loop never raises. -/
theorem spawnProcs_none_ok (i n : Nat) : (spawnProcs none i n).2.2 = false := by
  induction n generalizing i with
  | zero => rfl
  | succ n ih => simpa [spawnProcs] using ih (i + 1)

/-- Handles recorded by a fault-free spawn loop are exactly the indices
`i, i+1, ..., i+n-1`. -/
theorem spawnProcs_none_handles_mem (i n j : Nat) :
    j ∈ (spawnProcs none i n).2.1 ↔ i ≤ j ∧ j < i + n := by
  induction n generalizing i with
  | zero => simp [spawnProcs]
  | succ n ih =>
    simp only [spawnProcs]
    simp only [reduceCtorEq, if_false, List.mem_cons, ih (i + 1)]
    constructor
    · rintro (rfl | ⟨h1, h2⟩)
      · exact ⟨Nat.le_refl j, by omega⟩
      · exact ⟨by omega, by omega⟩
    · rintro ⟨h1, h2⟩
      rcases Nat.eq_or_lt_of_le h1 with rfl | h3
      · exact Or.inl rfl
      · exact Or.inr ⟨h3, by omega⟩

/-- The handles of a fault-free spawn loop carry no duplicates. -/
theorem spawnProcs_none_handles_nodup (i n : Nat) :
    ((spawnProcs none i n).2.1).Nodup := by
  induction n generalizing i with
  | zero => simp [spawnProcs]
  | succ n ih =>
    simp only [spawnProcs, reduceCtorEq, if_false]
    refine List.nodup_cons.mpr ⟨?_, ih (i + 1)⟩
    rw [spawnProcs_none_handles_mem]
    omega

/-- Each handle appears exactly once in the fault-free spawn loop. -/
theorem spawnProcs_none_handles_count (i n j : Nat) (h1 : i ≤ j) (h2 : j < i + n) :
    List.count j (spawnProcs none i n).2.1 = 1 :=
  List.count_eq_one_of_mem (spawnProcs_none_handles_nodup i n)
    ((spawnProcs_none_handles_mem i n j).mpr ⟨h1, h2⟩)

/-- The events of a fault-free spawn loop are exactly the `procCreate` and
`procStart` events of the indices `i, ..., i+n-1`. -/
theorem spawnProcs_none_mem_evs (i n : Nat) (e : SEv) :
    e ∈ (spawnProcs none i n).1 ↔
      ∃ j, i ≤ j ∧ j < i + n ∧ (e = SEv.procCreate j ∨ e = SEv.procStart j) := by
  induction n generalizing i with
  | zero =>
    simp only [spawnProcs, List.not_mem_nil, false_iff]
    rintro ⟨j, hj1, hj2, _⟩
    omega
  | succ n ih =>
    simp only [spawnProcs, reduceCtorEq, if_false, List.mem_cons, ih (i + 1)]
    constructor
    · rintro (rfl | rfl | ⟨j, hj1, hj2, hj3⟩)
      · exact ⟨i, Nat.le_refl i, by omega, Or.inl rfl⟩
      · exact ⟨i, Nat.le_refl i, by omega, Or.inr rfl⟩
      · exact ⟨j, by omega, by omega, hj3⟩
    · rintro ⟨j, hj1, hj2, hj3 | hj3⟩
      · rcases Nat.eq_or_lt_of_le hj1 with rfl | h3
        · exact Or.inl hj3
        · exact Or.inr (Or.inr ⟨j, by omega, by omega, Or.inl hj3⟩)
      · rcases Nat.eq_or_lt_of_le hj1 with rfl | h3
        · exact Or.inr (Or.inl hj3)
        · exact Or.inr (Or.inr ⟨j, by omega, by omega, Or.inr hj3⟩)

/-- The events of a fault-free spawn loop carry no duplicates. -/
theorem spawnProcs_none_evs_nodup (i n : Nat) :
    ((spawnProcs none i n).1).Nodup := by
  induction n generalizing i with
  | zero => simp [spawnProcs]
  | succ n ih =>
    simp only [spawnProcs, reduceCtorEq, if_false]
    refine List.nodup_cons.mpr ⟨?_, List.nodup_cons.mpr ⟨?_, ih (i + 1)⟩⟩
    · intro hmem
      rcases List.mem_cons.mp hmem with h | h
      · cases h
      · rcases (spawnProcs_none_mem_evs (i + 1) n _).mp h with ⟨j, hj1, _, hj3 | hj3⟩
        · injection hj3 with hji; omega
        · cases hj3
    · intro hmem
      rcases (spawnProcs_none_mem_evs (i + 1) n _).mp hmem with ⟨j, hj1, _, hj3 | hj3⟩
      · cases hj3
      · injection hj3 with hji; omega

/-- Events of the fault-free spawn loop that are neither `procCreate` nor
`procStart` do not occur. -/
theorem spawnProcs_none_count_other (e : SEv) (hc : isCreateEv e = false)
    (hs : isStartEv e = false) (i n : Nat) :
    List.count e (spawnProcs none i n).1 = 0 := by
  induction n generalizing i with
  | zero => rfl
  | succ n ih =>
    simp only [spawnProcs, reduceCtorEq, if_false, List.count_cons, ih (i + 1)]
    rcases e <;> simp_all [isCreateEv, isStartEv]

/-- `procStart j` occurs exactly once in the fault-free spawn loop when
`i ≤ j < i + n`. -/
theorem spawnProcs_none_count_start (i n j : Nat) (h1 : i ≤ j) (h2 : j < i + n) :
    List.count (SEv.procStart j) (spawnProcs none i n).1 = 1 :=
  List.count_eq_one_of_mem (spawnProcs_none_evs_nodup i n)
    ((spawnProcs_none_mem_evs i n _).mpr ⟨j, h1, h2, Or.inr rfl⟩)

/-- `procCreate j` occurs exactly once in the fault-free spawn loop when
`i ≤ j < i + n`. -/
theorem spawnProcs_none_count_create (i n j : Nat) (h1 : i ≤ j) (h2 : j < i + n) :
    List.count (SEv.procCreate j) (spawnProcs none i n).1 = 1 :=
  List.count_eq_one_of_mem (spawnProcs_none_evs_nodup i n)
    ((spawnProcs_none_mem_evs i n _).mpr ⟨j, h1, h2, Or.inl rfl⟩)

/-- The fault-free spawn loop emits exactly `n` `procCreate` events. -/
theorem spawnProcs_none_filter_create (i n : Nat) :
    ((spawnProcs none i n).1.filter isCreateEv).length = n := by
  induction n generalizing i with
  | zero => rfl
  | succ n ih =>
    simpa [spawnProcs, isCreateEv, isStartEv, List.filter] using ih (i + 1)

/-- The fault-free spawn loop emits exactly `n` `procStart` events. -/
theorem spawnProcs_none_filter_start (i n : Nat) :
    ((spawnProcs none i n).1.filter isStartEv).length = n := by
  induction n generalizing i with
  | zero => rfl
  | succ n ih =>
    simpa [spawnProcs, isCreateEv, isStartEv, List.filter] using ih (i + 1)

/-- `procStart j` is among the fault-free spawn events for `i ≤ j < i+n`. -/
theorem spawnProcs_none_mem_start (i n j : Nat) (h1 : i ≤ j) (h2 : j < i + n) :
    SEv.procStart j ∈ (spawnProcs none i n).1 :=
  (spawnProcs_none_mem_evs i n _).mpr ⟨j, h1, h2, Or.inr rfl⟩

/-- A mapped list contains no values outside the image of `f`. -/
theorem count_map_eq_zero {α β : Type} [DecidableEq β] (f : α → β) (l : List α) (b : β)
    (h : ∀ a, f a ≠ b) : List.count b (l.map f) = 0 := by
  rw [List.count_eq_zero]
  intro hb
  rcases List.mem_map.mp hb with ⟨a, _, ha⟩
  exact h a ha

/-- Mapped lists contain nothing a predicate that rejects the whole image
would keep. -/
theorem filter_map_none {α β : Type} (p : β → Bool) (f : α → β) (l : List α)
    (h : ∀ a, p (f a) = false) : (l.map f).filter p = [] := by
  induction l with
  | nil => rfl
  | cons a l ih => simp [h, ih]

/-- The full event trace of a fault-free `serve_multiple` run: signal
installation, socket setup, the spawn loop, the join loop, then `stop`
(terminations, single close, loop stop). -/
theorem serve_multiple_ok (sys : Sys) (app : App) (settings : ServerSettings) (workers : Nat)
    (hb : sys.bindFail = false) (hsp : sys.spawnFail = none) :
    (serve_multiple sys app settings workers).1 =
      [SEv.signalInstall ("SIGINT"), SEv.signalInstall ("SIGTERM"), SEv.sockCreate,
        SEv.setReuseAddr, SEv.sockBind, SEv.setInheritable] ++
        (spawnProcs none 0 workers).1 ++
        ((spawnProcs none 0 workers).2.1.map SEv.procJoin) ++
        ((spawnProcs none 0 workers).2.1.map SEv.procTerminate) ++
        [SEv.sockClose, SEv.loopStop] := by
  simp only [serve_multiple, hb, hsp, spawnProcs_none_ok, Bool.false_eq_true, if_false,
    stop, sockCloseOp]
  simp [List.append_assoc]

/-! ### Claim C6 -/

/-- Claim C6: in a fault-free multi-worker run (`workers > 1`), the
`serve_multiple` trace creates and binds exactly one socket, sets address
reuse before binding, marks the descriptor inheritable before any worker is
started, creates and starts exactly `workers` worker processes, and closes
the socket exactly once, after every worker has been joined (each ordering
is expressed as a two-element sublist whose members each occur exactly
once). -/
theorem c6_multi_worker_lifecycle (sys : Sys) (app : App) (settings : ServerSettings)
    (workers : Nat) (hb : sys.bindFail = false) (hsp : sys.spawnFail = none)
    (_hw : 1 < workers) :
    ∀ tr, tr = (serve_multiple sys app settings workers).1 →
      List.count SEv.sockCreate tr = 1 ∧
      List.count SEv.sockBind tr = 1 ∧
      List.count SEv.setReuseAddr tr = 1 ∧
      List.Sublist [SEv.setReuseAddr, SEv.sockBind] tr ∧
      List.count SEv.setInheritable tr = 1 ∧
      (∀ i, i < workers →
        List.count (SEv.procStart i) tr = 1 ∧
        List.Sublist [SEv.setInheritable, SEv.procStart i] tr) ∧
      (tr.filter isCreateEv).length = workers ∧
      (tr.filter isStartEv).length = workers ∧
      List.count SEv.sockClose tr = 1 ∧
      (∀ i, i < workers →
        List.count (SEv.procJoin i) tr = 1 ∧
        List.Sublist [SEv.procJoin i, SEv.sockClose] tr) := by
  intro tr htr
  subst htr
  rw [serve_multiple_ok sys app settings workers hb hsp]
  have hcS := fun e hc hs => spawnProcs_none_count_other e hc hs 0 workers
  have hcJ := fun (b : SEv) (h : ∀ a, SEv.procJoin a ≠ b) =>
    count_map_eq_zero SEv.procJoin (spawnProcs none 0 workers).2.1 b h
  have hcT := fun (b : SEv) (h : ∀ a, SEv.procTerminate a ≠ b) =>
    count_map_eq_zero SEv.procTerminate (spawnProcs none 0 workers).2.1 b h
  refine ⟨?_, ?_, ?_, ?_, ?_, ?_, ?_, ?_, ?_, ?_⟩
  · simp only [List.count_append]
    rw [hcS SEv.sockCreate rfl rfl, hcJ SEv.sockCreate (fun a => by simp),
      hcT SEv.sockCreate (fun a => by simp)]
    decide
  · simp only [List.count_append]
    rw [hcS SEv.sockBind rfl rfl, hcJ SEv.sockBind (fun a => by simp),
      hcT SEv.sockBind (fun a => by simp)]
    decide
  · simp only [List.count_append]
    rw [hcS SEv.setReuseAddr rfl rfl, hcJ SEv.setReuseAddr (fun a => by simp),
      hcT SEv.setReuseAddr (fun a => by simp)]
    decide
  · have h1 : List.Sublist [SEv.setReuseAddr, SEv.sockBind]
        [SEv.signalInstall ("SIGINT"), SEv.signalInstall ("SIGTERM"), SEv.sockCreate,
          SEv.setReuseAddr, SEv.sockBind, SEv.setInheritable] := by decide
    exact ((((h1.trans (List.sublist_append_left _ _)).trans
      (List.sublist_append_left _ _)).trans
      (List.sublist_append_left _ _)).trans
      (List.sublist_append_left _ _))
  · simp only [List.count_append]
    rw [hcS SEv.setInheritable rfl rfl, hcJ SEv.setInheritable (fun a => by simp),
      hcT SEv.setInheritable (fun a => by simp)]
    decide
  · intro i hi
    constructor
    · simp only [List.count_append]
      rw [spawnProcs_none_count_start 0 workers i (Nat.zero_le i) (by omega),
        hcJ (SEv.procStart i) (fun a => by simp), hcT (SEv.procStart i) (fun a => by simp),
        List.count_eq_zero_of_not_mem (a := SEv.procStart i)
          (l := [SEv.signalInstall ("SIGINT"), SEv.signalInstall ("SIGTERM"), SEv.sockCreate,
            SEv.setReuseAddr, SEv.sockBind, SEv.setInheritable]) (by simp),
        List.count_eq_zero_of_not_mem (a := SEv.procStart i)
          (l := [SEv.sockClose, SEv.loopStop]) (by simp)]
    · have hP : List.Sublist [SEv.setInheritable]
          [SEv.signalInstall ("SIGINT"), SEv.signalInstall ("SIGTERM"), SEv.sockCreate,
            SEv.setReuseAddr, SEv.sockBind, SEv.setInheritable] := by decide
      have hS : List.Sublist [SEv.procStart i] (spawnProcs none 0 workers).1 :=
        List.singleton_sublist.mpr
          (spawnProcs_none_mem_start 0 workers i (Nat.zero_le i) (by omega))
      have h2 := List.Sublist.append hP hS
      exact (((h2.trans (List.sublist_append_left _ _)).trans
        (List.sublist_append_left _ _)).trans
        (List.sublist_append_left _ _))
  · simp only [List.filter_append, List.length_append]
    rw [filter_map_none isCreateEv SEv.procJoin _ (fun a => rfl),
      filter_map_none isCreateEv SEv.procTerminate _ (fun a => rfl),
      spawnProcs_none_filter_create 0 workers]
    have h1 : List.filter isCreateEv [SEv.signalInstall ("SIGINT"),
        SEv.signalInstall ("SIGTERM"), SEv.sockCreate, SEv.setReuseAddr, SEv.sockBind,
        SEv.setInheritable] = [] := rfl
    have h2 : List.filter isCreateEv [SEv.sockClose, SEv.loopStop] = [] := rfl
    rw [h1, h2]
    simp
  · simp only [List.filter_append, List.length_append]
    rw [filter_map_none isStartEv SEv.procJoin _ (fun a => rfl),
      filter_map_none isStartEv SEv.procTerminate _ (fun a => rfl),
      spawnProcs_none_filter_start 0 workers]
    have h1 : List.filter isStartEv [SEv.signalInstall ("SIGINT"),
        SEv.signalInstall ("SIGTERM"), SEv.sockCreate, SEv.setReuseAddr, SEv.sockBind,
        SEv.setInheritable] = [] := rfl
    have h2 : List.filter isStartEv [SEv.sockClose, SEv.loopStop] = [] := rfl
    rw [h1, h2]
    simp
  · simp only [List.count_append]
    rw [hcS SEv.sockClose rfl rfl, hcJ SEv.sockClose (fun a => by simp),
      hcT SEv.sockClose (fun a => by simp)]
    decide
  · intro i hi
    constructor
    · simp only [List.count_append]
      rw [hcS (SEv.procJoin i) rfl rfl, hcT (SEv.procJoin i) (fun a => by simp),
        List.count_map_of_injective _ SEv.procJoin (fun a b h => by injection h) i,
        spawnProcs_none_handles_count 0 workers i (Nat.zero_le i) (by omega),
        List.count_eq_zero_of_not_mem (a := SEv.procJoin i)
          (l := [SEv.signalInstall ("SIGINT"), SEv.signalInstall ("SIGTERM"), SEv.sockCreate,
            SEv.setReuseAddr, SEv.sockBind, SEv.setInheritable]) (by simp),
        List.count_eq_zero_of_not_mem (a := SEv.procJoin i)
          (l := [SEv.sockClose, SEv.loopStop]) (by simp)]
    · have hA : List.Sublist [SEv.procJoin i]
          ([SEv.signalInstall ("SIGINT"), SEv.signalInstall ("SIGTERM"), SEv.sockCreate,
             SEv.setReuseAddr, SEv.sockBind, SEv.setInheritable] ++
            (spawnProcs none 0 workers).1 ++
            ((spawnProcs none 0 workers).2.1.map SEv.procJoin)) := by
        refine List.singleton_sublist.mpr (List.mem_append.mpr (Or.inr ?_))
        exact List.mem_map.mpr ⟨i, (spawnProcs_none_handles_mem 0 workers i).mpr
          ⟨Nat.zero_le i, by omega⟩, rfl⟩
      have hB : List.Sublist [SEv.sockClose]
          (((spawnProcs none 0 workers).2.1.map SEv.procTerminate) ++
            [SEv.sockClose, SEv.loopStop]) := by
        refine List.singleton_sublist.mpr (List.mem_append.mpr (Or.inr ?_))
        simp
      have h2 := List.Sublist.append hA hB
      rw [List.append_assoc ([SEv.signalInstall ("SIGINT"), SEv.signalInstall ("SIGTERM"),
        SEv.sockCreate, SEv.setReuseAddr, SEv.sockBind, SEv.setInheritable] ++
          (spawnProcs none 0 workers).1 ++
          ((spawnProcs none 0 workers).2.1.map SEv.procJoin))]
      exact h2

/-! ### Claim C7 -/

/-- After `sockCloseOp` the socket object is closed. -/
theorem sockCloseOp_closed (s : SockState) : (sockCloseOp s).2.closed = true := by
  by_cases hc : s.closed <;> simp [sockCloseOp, hc]

/-- `sockCloseOp` on an already-closed socket emits nothing. -/
theorem sockCloseOp_of_closed (s : SockState) (h : s.closed = true) :
    sockCloseOp s = ([], s) := by
  simp [sockCloseOp, h]

/-- One `sockCloseOp` call closes the descriptor at most once. -/
theorem sockCloseOp_count (s : SockState) :
    List.count SEv.sockClose (sockCloseOp s).1 ≤ 1 := by
  by_cases hc : s.closed <;> simp [sockCloseOp, hc]

/-- Claim C7: on any state satisfying the reachable invariant (recorded
processes imply a recorded socket), `stop` succeeds, a second `stop` also
succeeds, the first call closes the descriptor at most once, the second
call never closes it, and with no processes ever spawned the whole effect
is the single loop-stop event with the state unchanged. -/
theorem c7_stop_idempotent (app : App)
    (hinv : app.processes = none ∨ app.sock.isSome = true) :
    ∃ tr1 app1, stop app = Except.ok (tr1, app1) ∧
      ∃ tr2 app2, stop app1 = Except.ok (tr2, app2) ∧
      List.count SEv.sockClose tr1 ≤ 1 ∧
      List.count SEv.sockClose tr2 = 0 ∧
      (app.processes = none → tr1 = [SEv.loopStop] ∧ app1 = app) := by
  rcases hp : app.processes with _ | ps
  · refine ⟨[SEv.loopStop], app, by simp [stop, hp], [SEv.loopStop], app,
      by simp [stop, hp], by simp, by simp, fun _ => ⟨rfl, rfl⟩⟩
  · rcases hs : app.sock with _ | s
    · rcases hinv with h | h
      · rw [hp] at h; cases h
      · rw [hs] at h; simp at h
    · refine ⟨ps.map SEv.procTerminate ++ (sockCloseOp s).1 ++ [SEv.loopStop],
        { app with sock := some (sockCloseOp s).2 }, by simp [stop, hp, hs],
        ps.map SEv.procTerminate ++ [SEv.loopStop],
        { app with sock := some (sockCloseOp s).2 }, ?_, ?_, ?_, ?_⟩
      · have h1 : sockCloseOp (sockCloseOp s).2 = ([], (sockCloseOp s).2) :=
          sockCloseOp_of_closed _ (sockCloseOp_closed s)
        simp [stop, hp, h1]
      · simp only [List.count_append]
        rw [count_map_eq_zero SEv.procTerminate ps SEv.sockClose (fun a => by simp)]
        have := sockCloseOp_count s
        simp
        omega
      · simp only [List.count_append]
        rw [count_map_eq_zero SEv.procTerminate ps SEv.sockClose (fun a => by simp)]
        simp
      · intro h
        simp [hp] at h

/-- Claim C7, witness: two successive `stop` calls on a state with one
recorded worker and an open socket, and a `stop` on the fresh state. -/
theorem c7_witness :
    (∃ tr1 app1, stop { appFresh with processes := some [0], sock := some {} } =
        Except.ok (tr1, app1) ∧
      ∃ tr2 app2, stop app1 = Except.ok (tr2, app2) ∧
      List.count SEv.sockClose tr1 ≤ 1 ∧
      List.count SEv.sockClose tr2 = 0 ∧
      (({ appFresh with processes := some [0], sock := some {} } : App).processes = none →
        tr1 = [SEv.loopStop] ∧
          app1 = { appFresh with processes := some [0], sock := some {} })) ∧
    (∃ tr1 app1, stop appFresh = Except.ok (tr1, app1) ∧
      ∃ tr2 app2, stop app1 = Except.ok (tr2, app2) ∧
      List.count SEv.sockClose tr1 ≤ 1 ∧
      List.count SEv.sockClose tr2 = 0 ∧
      (appFresh.processes = none → tr1 = [SEv.loopStop] ∧ app1 = appFresh)) :=
  ⟨c7_stop_idempotent { appFresh with processes := some [0], sock := some {} } (Or.inr rfl),
   c7_stop_idempotent appFresh (Or.inl rfl)⟩

/-! ### Claim C8 -/

/-- Claim C8: with `workers = 1`, `run` serves in-process (a `serveCall`
event occurs) and touches none of the fan-out machinery: the `sock` and
`processes` fields are unchanged (hence stay `None` on a fresh app) and the
trace contains no socket creation, no process creation or start, and no
signal-handler installation. -/
theorem c8_single_worker (sys : Sys) (app : App) (host : String) (port : Nat) (debug : Bool) :
    (run sys app host port debug 1).2.sock = app.sock ∧
    (run sys app host port debug 1).2.processes = app.processes ∧
    SEv.serveCall ∈ (run sys app host port debug 1).1 ∧
    ∀ e ∈ (run sys app host port debug 1).1,
      e ≠ SEv.sockCreate ∧ (∀ i, e ≠ SEv.procCreate i ∧ e ≠ SEv.procStart i) ∧
      (∀ s, e ≠ SEv.signalInstall s) := by
  by_cases hf : sys.serveFail <;> by_cases hd : debug <;>
    simp [run, hf, hd]

/-! ### Claim C9 -/

/-- The spawn loop raises when the failing index is inside the range. -/
theorem spawnProcs_fail (k i : Nat) : ∀ n, i ≤ k → k < i + n →
    (spawnProcs (some k) i n).2.2 = true := by
  intro n
  induction n generalizing i with
  | zero => intro h1 h2; omega
  | succ n ih =>
    intro h1 h2
    by_cases hk : k = i
    · simp [spawnProcs, hk]
    · simpa [spawnProcs, Ne.symm hk, hk] using ih (i + 1) (by omega) (by omega)

/-- A failing bind makes `serve_multiple` propagate an exception. -/
theorem serve_multiple_err_bind (sys : Sys) (app : App) (settings : ServerSettings)
    (workers : Nat) (hb : sys.bindFail = true) :
    (serve_multiple sys app settings workers).2.2.2 =
      some (Err.exc ("OSError: could not bind")) := by
  simp [serve_multiple, hb]

/-- A failing worker start makes `serve_multiple` propagate an exception. -/
theorem serve_multiple_err_spawn (sys : Sys) (app : App) (settings : ServerSettings)
    (workers k : Nat) (hb : sys.bindFail = false) (hsp : sys.spawnFail = some k)
    (hk : k < workers) :
    (serve_multiple sys app settings workers).2.2.2 =
      some (Err.exc ("process start failed")) := by
  simp [serve_multiple, hb, hsp, spawnProcs_fail k 0 workers (Nat.zero_le k) (by omega)]

/-- The last element of a trace that ends in a singleton block. -/
theorem getLast?_cons_concat {α : Type} (x a : α) (l : List α) :
    (x :: (l ++ [a])).getLast? = some a :=
  List.getLast?_concat (x :: l)

/-- The last element of a trace that ends in a two-element block. -/
theorem getLast?_cons_append_pair {α : Type} (x a b : α) (l : List α) :
    (x :: (l ++ [a, b])).getLast? = some b := by
  rw [show (x :: (l ++ [a, b])) = (x :: (l ++ [a])) ++ [b] by simp]
  exact List.getLast?_concat _

/-- Claim C9: every `run` logs the startup line, ends by logging the
shutdown line (and returns normally, being a total function), and failures
during the in-process serve, the socket bind, or a worker start are caught
and logged instead of propagating. -/
theorem c9_run_returns_and_logs (sys : Sys) (app : App) (host : String) (port : Nat)
    (debug : Bool) (workers : Nat) :
    SEv.logInfo (startupMsg host port) ∈ (run sys app host port debug workers).1 ∧
    ((run sys app host port debug workers).1).getLast? =
      some (SEv.logInfo ("Server Stopped")) ∧
    (workers = 1 → sys.serveFail = true →
      SEv.logException serveErrMsg ∈ (run sys app host port debug workers).1) ∧
    (workers ≠ 1 → sys.bindFail = true →
      SEv.logException serveErrMsg ∈ (run sys app host port debug workers).1) ∧
    (workers ≠ 1 → sys.bindFail = false → ∀ k, sys.spawnFail = some k → k < workers →
      SEv.logException serveErrMsg ∈ (run sys app host port debug workers).1) := by
  by_cases hw : workers == 1
  · have hw1 : workers = 1 := by simpa using hw
    subst hw1
    by_cases hf : sys.serveFail <;> by_cases hd : debug <;>
      simp [run, hf, hd, List.getLast?_concat]
  · have hw1 : ¬ workers = 1 := by simpa using hw
    rcases herr : (serve_multiple sys { app with error_handler := { app.error_handler with debug := true }, debug := some debug } ⟨some host, some port, false, debug, false⟩ workers).2.2.2 with _ | e
    · refine ⟨?_, ?_, ?_, ?_, ?_⟩
      · simp [run, hw, herr]
      · simp [run, hw, herr, List.getLast?_concat, getLast?_cons_concat]
      · intro h; exact absurd h hw1
      · intro _ hb
        have := serve_multiple_err_bind sys { app with error_handler := { app.error_handler with debug := true }, debug := some debug } ⟨some host, some port, false, debug, false⟩ workers hb
        rw [herr] at this
        cases this
      · intro _ hb k hspk hk
        have := serve_multiple_err_spawn sys { app with error_handler := { app.error_handler with debug := true }, debug := some debug } ⟨some host, some port, false, debug, false⟩ workers k hb hspk hk
        rw [herr] at this
        cases this
    · refine ⟨?_, ?_, ?_, ?_, ?_⟩
      · simp [run, hw, herr]
      · simp [run, hw, herr, getLast?_cons_append_pair]
      · intro h; exact absurd h hw1
      · intro _ _
        simp [run, hw, herr]
      · intro _ _ k _ _
        simp [run, hw, herr]

/-- Claim C9, witness: concrete serve, bind and spawn failures are logged
and the run still ends with the shutdown log. -/
theorem c9_witness :
    SEv.logInfo (startupMsg ("h") 80) ∈
      (run { bindFail := false, spawnFail := none, serveFail := true } appFresh ("h") 80 false 1).1 ∧
    SEv.logException serveErrMsg ∈
      (run { bindFail := false, spawnFail := none, serveFail := true } appFresh ("h") 80 false 1).1 ∧
    SEv.logException serveErrMsg ∈
      (run { bindFail := true, spawnFail := none, serveFail := false } appFresh ("h") 80 false 2).1 ∧
    SEv.logException serveErrMsg ∈
      (run { bindFail := false, spawnFail := some 0, serveFail := false } appFresh ("h") 80 false 2).1 ∧
    ((run { bindFail := false, spawnFail := none, serveFail := false } appFresh ("h") 80 false 2).1).getLast? =
      some (SEv.logInfo ("Server Stopped")) :=
  ⟨(c9_run_returns_and_logs _ _ _ _ _ _).1,
   (c9_run_returns_and_logs _ _ _ _ _ _).2.2.1 rfl rfl,
   (c9_run_returns_and_logs _ _ _ _ _ _).2.2.2.1 (by omega) rfl,
   (c9_run_returns_and_logs _ _ _ _ _ _).2.2.2.2 (by omega) rfl 0 rfl (by omega),
   (c9_run_returns_and_logs _ _ _ _ _ _).2.1⟩

/-- Claim C6, witness: a fault-free two-worker run. -/
theorem c6_witness :
    List.count SEv.sockCreate
      (serve_multiple sysOK appFresh ⟨some ("h"), some 80, false, false, false⟩ 2).1 = 1 ∧
    List.count SEv.sockClose
      (serve_multiple sysOK appFresh ⟨some ("h"), some 80, false, false, false⟩ 2).1 = 1 ∧
    (List.filter isCreateEv
      (serve_multiple sysOK appFresh ⟨some ("h"), some 80, false, false, false⟩ 2).1).length = 2 := by
  have h := c6_multi_worker_lifecycle sysOK appFresh ⟨some ("h"), some 80, false, false, false⟩ 2
    rfl rfl (by omega)
    ((serve_multiple sysOK appFresh ⟨some ("h"), some 80, false, false, false⟩ 2).1) rfl
  exact ⟨h.1, h.2.2.2.2.2.2.2.2.1, h.2.2.2.2.2.2.1⟩

/-! ### Claim C10 -/

/-- `stop` never changes the error handler or the debug flag. -/
theorem stop_frame (app : App) : ∀ tr app2, stop app = Except.ok (tr, app2) →
    app2.error_handler = app.error_handler ∧ app2.debug = app.debug := by
  intro tr app2 h
  rcases hp : app.processes with _ | ps
  · simp [stop, hp] at h
    rw [← h.2]
    exact ⟨rfl, rfl⟩
  · rcases hs : app.sock with _ | s
    · simp [stop, hp, hs] at h
    · simp [stop, hp, hs] at h
      rw [← h.2]
      exact ⟨rfl, rfl⟩

/-- `serve_multiple` never changes the error handler or the debug flag. -/
theorem serve_multiple_frame (sys : Sys) (app : App) (settings : ServerSettings)
    (workers : Nat) :
    (serve_multiple sys app settings workers).2.1.error_handler = app.error_handler ∧
    (serve_multiple sys app settings workers).2.1.debug = app.debug := by
  by_cases hb : sys.bindFail
  · simp [serve_multiple, hb]
  · by_cases hr : (spawnProcs sys.spawnFail 0 workers).2.2
    · simp [serve_multiple, hb, hr]
    · rw [Bool.not_eq_true] at hr
      simp [serve_multiple, hb, hr, stop, sockCloseOp]

/-- Claim C10: `run` sets the first-level translator flag
`error_handler.debug` to `True` unconditionally, while `self.debug` records
the actual `debug` argument, and it is that argument alone which selects
the second-level fallback body. -/
theorem c10_translator_debug_forced (sys : Sys) (app : App) (host : String) (port : Nat)
    (d : Bool) (workers : Nat) :
    (run sys app host port d workers).2.error_handler.debug = true ∧
    (run sys app host port d workers).2.debug = some d ∧
    (∀ req e e2, app.error_handler.response req e = Except.error e2 →
      containError (run sys app host port d workers).2 req e =
        (if d then PyVal.resp (debugErrBody e2) else PyVal.resp genericErrBody)) := by
  have hmain : (run sys app host port d workers).2.error_handler =
      { debug := true, response := app.error_handler.response } ∧
      (run sys app host port d workers).2.debug = some d := by
    by_cases hw : workers == 1
    · by_cases hf : sys.serveFail <;> simp [run, hw, hf]
    · rcases herr : (serve_multiple sys { app with error_handler := { app.error_handler with debug := true }, debug := some d } ⟨some host, some port, false, d, false⟩ workers).2.2.2 with _ | e
      · have hfr := serve_multiple_frame sys { app with error_handler := { app.error_handler with debug := true }, debug := some d } ⟨some host, some port, false, d, false⟩ workers
        simp only [run, hw, herr]
        simp
        exact ⟨hfr.1, hfr.2⟩
      · have hfr := serve_multiple_frame sys { app with error_handler := { app.error_handler with debug := true }, debug := some d } ⟨some host, some port, false, d, false⟩ workers
        simp only [run, hw, herr]
        simp
        exact ⟨hfr.1, hfr.2⟩
  rcases hmain with ⟨hm1, hm2⟩
  refine ⟨by rw [hm1], hm2, ?_⟩
  intro req e e2 h2
  simp [containError, hm1, hm2, h2, debugTruthy]

/-- Claim C10, witness: the `debug` argument, not the forced translator
flag, selects the fallback body. -/
theorem c10_witness :
    (run sysOK appAllRaise ("h") 80 true 1).2.error_handler.debug = true ∧
    (run sysOK appAllRaise ("h") 80 false 1).2.error_handler.debug = true ∧
    containError (run sysOK appAllRaise ("h") 80 true 1).2 0 (Err.exc ("request hook boom")) =
      PyVal.resp (debugErrBody (Err.exc ("secondary boom"))) ∧
    containError (run sysOK appAllRaise ("h") 80 false 1).2 0 (Err.exc ("request hook boom")) =
      PyVal.resp genericErrBody := by
  refine ⟨(c10_translator_debug_forced sysOK appAllRaise ("h") 80 true 1).1,
    (c10_translator_debug_forced sysOK appAllRaise ("h") 80 false 1).1, ?_, ?_⟩
  · have := (c10_translator_debug_forced sysOK appAllRaise ("h") 80 true 1).2.2 0
      (Err.exc ("request hook boom")) (Err.exc ("secondary boom")) rfl
    simpa using this
  · have := (c10_translator_debug_forced sysOK appAllRaise ("h") 80 false 1).2.2 0
      (Err.exc ("request hook boom")) (Err.exc ("secondary boom")) rfl
    simpa using this
